import Mathlib

/-!
Shallow embedding of `entity_emailer/email_processors/nr_notification.py`
(the Name Request notification email builder) and verification of its
specification.

The module is a single linear function `process(email_info, option)` that
reads a template file, substitutes boilerplate parts, queries the NameX
registry, derives rendering variables, renders HTML with Jinja2
(`autoescape=True`) and assembles an email payload.

External collaborators (flask config, the filesystem of template assets,
`substitute_template_parts`, `NameXService.query_nr_number`,
`datetime.fromisoformat`, `LegislationDatetime`) are modelled as fields of
an environment structure `Env` so that `process` is a pure function of the
environment and its two arguments.  Python exceptions are modelled with
`Except`; the `{}` early-exit returns are modelled with `ProcResult.empty`.
-/

set_option autoImplicit false

namespace NrNotification

/-- The values of the Python `Option` enum of the module (named `NROption`
here because `Option` is taken by Lean's core type). -/
inductive NROption
  | BEFORE_EXPIRY
  | EXPIRED
  | RENEWAL
  | UPGRADE
  | REFUND
  deriving DecidableEq

/-- The `value` strings of the source enum members. -/
def NROption.value : NROption → String
  | .BEFORE_EXPIRY => "before-expiry"
  | .EXPIRED => "expired"
  | .RENEWAL => "renewal"
  | .UPGRADE => "upgrade"
  | .REFUND => "refund"

/-- Flask configuration keys read by the module.  `current_app.config.get`
returns `None` for an absent key, hence `Option String` for the URL keys.
`TEMPLATE_PATH` is kept as a `String` because it is interpolated into the
template file path. -/
structure Config where
  DECIDE_BUSINESS_URL : Option String
  CORP_FORMS_URL : Option String
  BUSINESS_URL : Option String
  COLIN_URL : Option String
  TEMPLATE_PATH : String

/-- One entry of the registry record's `names` sequence. -/
structure NameItem where
  name : String
  state : String
  deriving DecidableEq

/-- The registry record's `applicants` object.  `emailAddress` is
`Option String`: `none` models a JSON `null` value (an OK response is
guaranteed by the registry contract to contain the field itself). -/
structure Applicants where
  emailAddress : Option String
  deriving DecidableEq

/-- The JSON body of an OK registry response: `expirationDate` (ISO-8601
string, empty string, or `null` = `none`), the ordered `names` sequence,
`applicants` and `entity_type_cd`. -/
structure NrData where
  expirationDate : Option String
  names : List NameItem
  applicants : Applicants
  entity_type_cd : String
  deriving DecidableEq

/-- The response of `NameXService.query_nr_number`: an HTTP status code and
a JSON body (the body is only read when the status is 200 OK). -/
structure NrResponse where
  status_code : Nat
  json : NrData

/-- The `email_info['data']['request']` object — may carry a `refundValue`. -/
structure RequestData where
  refundValue : Option String
  deriving DecidableEq

/-- The `email_info['data']` object — may carry a `request` object. -/
structure EmailData where
  request : Option RequestData
  deriving DecidableEq

/-- The `email_info` mapping.  `identifier` is read with `['identifier']`
and is required; `data` is read with `.get` chains and is optional. -/
structure EmailInfo where
  identifier : String
  data : Option EmailData
  deriving DecidableEq

/-- The chained lookup
`email_info.get('data', {}).get('request', {}).get('refundValue', None)`:
each missing level defaults to the next `.get` on an empty dict, so the
whole chain produces the value or Python `None` (= `none`). -/
def refundValueOf (email_info : EmailInfo) : Option String :=
  match email_info.data with
  | none => none
  | some d =>
    match d.request with
    | none => none
    | some r => r.refundValue

/-- The six variable names the template is rendered with. -/
inductive TemplateVar
  | nr_number
  | expiration_date
  | legal_name
  | refund_value
  | name_request_url
  | decide_business_url
  deriving DecidableEq

/-- A template is a sequence of literal-text segments and variable
interpolations; this is the fragment of Jinja2 template syntax these email
templates use. -/
inductive Seg
  | lit (s : String)
  | var (v : TemplateVar)
  deriving DecidableEq

/-- Template text, structured as its parse. -/
def TemplateText := List Seg

/-- The context the source passes to `mail_template.render`: six named
values.  `refund_value` and the two URLs can be Python `None`. -/
structure RenderCtx where
  nr_number : String
  expiration_date : String
  legal_name : String
  refund_value : Option String
  name_request_url : Option String
  decide_business_url : Option String
  deriving DecidableEq

/-- Python `str()` of a string-or-`None` value: `None` prints as "None". -/
def pyStr : Option String → String
  | some s => s
  | none => "None"

/-- Modelled from the documented semantics of `markupsafe.escape` (used by
Jinja2 when `autoescape=True`): the five HTML-significant characters are
replaced by entities (codes 38 `&`, 60 `<`, 62 `>`, 34 `"`, 39 `'`). -/
def escapeCharL (c : Char) : List Char :=
  if c.toNat = 38 then "&amp;".data
  else if c.toNat = 60 then "&lt;".data
  else if c.toNat = 62 then "&gt;".data
  else if c.toNat = 34 then "&#34;".data
  else if c.toNat = 39 then "&#39;".data
  else [c]

/-- HTML-escape a character list. -/
def htmlEscapeL : List Char → List Char
  | [] => []
  | c :: cs => escapeCharL c ++ htmlEscapeL cs

/-- HTML-escape a string (markupsafe escape). -/
def htmlEscape (s : String) : String :=
  String.mk (htmlEscapeL s.data)

/-- The value substituted for one variable reference. -/
def varValue (ctx : RenderCtx) : TemplateVar → String
  | .nr_number => ctx.nr_number
  | .expiration_date => ctx.expiration_date
  | .legal_name => ctx.legal_name
  | .refund_value => pyStr ctx.refund_value
  | .name_request_url => pyStr ctx.name_request_url
  | .decide_business_url => pyStr ctx.decide_business_url

/-- Rendering of one segment under `autoescape=True`: literal text is
emitted verbatim, every substituted variable value is HTML-escaped. -/
def renderSeg (ctx : RenderCtx) : Seg → String
  | .lit s => s
  | .var v => htmlEscape (varValue ctx v)

/-- Modelled from the documented semantics of
`jinja2.Template(text, autoescape=True).render(...)` on templates made of
literal text and variable interpolations. -/
def renderTemplate (ctx : RenderCtx) : TemplateText → String
  | [] => ""
  | seg :: rest => renderSeg ctx seg ++ renderTemplate ctx rest

/-- Python exceptions `process` can raise in the modelled fragment:
`FileNotFoundError` from `Path(...).read_text()`, `ValueError` from
`datetime.fromisoformat`, `KeyError` from `subjects[option]`. -/
inductive PyErr
  | fileNotFound (path : String)
  | valueError
  | keyError (key : String)
  deriving DecidableEq

/-- A log record emitted through `logger`.  The dict repr that
`logger.debug` interpolates for `email_info` is abstracted away; the
`logger.error` message is kept verbatim. -/
inductive LogEntry
  | debug (msg : String)
  | error (msg : String)
  deriving DecidableEq

/-- The `content` object of the returned payload. -/
structure EmailContent where
  subject : String
  body : String
  attachments : List String
  deriving DecidableEq

/-- The returned email payload. -/
structure EmailPayload where
  recipients : String
  requestBy : String
  content : EmailContent
  deriving DecidableEq

/-- The dict `process` returns: either the empty mapping `{}` or a
payload. -/
inductive ProcResult
  | empty
  | payload (p : EmailPayload)
  deriving DecidableEq

/-- The environment of external collaborators:
  * `config` — flask `current_app.config`;
  * `templates` — the filesystem of template assets: full path to content,
    `none` when the file is absent (`read_text` raises);
  * `substitute_template_parts` — modelled from the spec: the shared
    boilerplate-fragment injection helper of the repository, opaque here;
  * `query_nr_number` — `NameXService.query_nr_number`;
  * `fromisoformat` — modelled from the spec: `datetime.fromisoformat`,
    `none` models the `ValueError` on a string that is not ISO-8601, and a
    parsed datetime is represented opaquely by a `String`;
  * `as_legislation_timezone`, `format_as_report_string` — modelled from
    the spec: `LegislationDatetime` helpers of the repository (timezone
    conversion and fixed report formatting), opaque here. -/
structure Env where
  config : Config
  templates : String → Option TemplateText
  substitute_template_parts : TemplateText → TemplateText
  query_nr_number : String → NrResponse
  fromisoformat : String → Option String
  as_legislation_timezone : String → String
  format_as_report_string : String → String

/-- Python `option.upper()` (the option strings are ASCII), character by
character. -/
def pyUpper (s : String) : String :=
  String.mk (s.data.map Char.toUpper)

/-- The template file path
`f'{current_app.config.get("TEMPLATE_PATH")}/NR-{option.upper()}.html'`. -/
def templatePath (cfg : Config) (option : String) : String :=
  cfg.TEMPLATE_PATH ++ "/NR-" ++ pyUpper option ++ ".html"

/-- The `logger.debug('NR %s notification: %s', option, email_info)` call
(the `email_info` repr is abstracted). -/
def debugLog (option : String) : LogEntry :=
  LogEntry.debug ("NR " ++ option ++ " notification")

/-- Lines 96-100 of the source: `expiration_date = ''`; when
`nr_data['expirationDate']` is truthy, parse it (ValueError propagates),
convert to the legislative timezone and format as a report string. -/
def computeExpirationDate (env : Env) (nr_data : NrData) : Except PyErr String :=
  match nr_data.expirationDate with
  | none => Except.ok ""
  | some s =>
    if s = "" then Except.ok ""
    else
      match env.fromisoformat s with
      | none => Except.error PyErr.valueError
      | some exp_date =>
        Except.ok (env.format_as_report_string (env.as_legislation_timezone exp_date))

/-- Lines 102-104 of the source: `refund_value = ''`, replaced by the
chained `.get` lookup only when `option == Option.REFUND.value`. -/
def computeRefundValue (email_info : EmailInfo) (option : String) : Option String :=
  if option = NROption.REFUND.value then refundValueOf email_info else some ""

/-- Lines 106-110 of the source: the `for n_item in nr_data['names']` loop
with `break` — the first name whose state is APPROVED or CONDITION, else
the empty string. -/
def legalNameOf : List NameItem → String
  | [] => ""
  | n_item :: rest =>
    if n_item.state = "APPROVED" ∨ n_item.state = "CONDITION" then n_item.name
    else legalNameOf rest

/-- The `url` dict of `get_url`, entry by entry. -/
def urlTable (cfg : Config) : List (String × Option String) :=
  [("CR", cfg.COLIN_URL),
   ("UL", cfg.COLIN_URL),
   ("FR", cfg.DECIDE_BUSINESS_URL),
   ("GP", cfg.DECIDE_BUSINESS_URL),
   ("DBA", cfg.DECIDE_BUSINESS_URL),
   ("LP", cfg.CORP_FORMS_URL),
   ("LL", cfg.CORP_FORMS_URL),
   ("CP", cfg.BUSINESS_URL),
   ("BC", cfg.BUSINESS_URL),
   ("CC", cfg.COLIN_URL),
   ("SO", some "BC Social Enterprise"),
   ("PA", some "Submit appropriate form to BC Registries. Call if assistance required"),
   ("FI", some "Submit appropriate form to BC Registries. Call if assistance required"),
   ("PAR", some "Submit appropriate form to BC Registries. Call if assistance required"),
   ("XCR", cfg.COLIN_URL),
   ("XUL", cfg.COLIN_URL),
   ("RLC", cfg.COLIN_URL),
   ("XLP", cfg.CORP_FORMS_URL),
   ("XLL", cfg.CORP_FORMS_URL),
   ("XCP", some "Extraprovincial Cooperative Association"),
   ("XSO", some "Extraprovincial Cooperative Association")]

/-- The lookup `url.get(entity_type_cd, None)` of `get_url` — a miss
yields Python `None`, as does a hit on an entry whose configured URL is
absent. -/
def get_url (cfg : Config) (entity_type_cd : String) : Option String :=
  (((urlTable cfg).lookup entity_type_cd).getD none)

/-- The `subjects` dict, keyed by the enum values; `subjects[option]`
raises `KeyError` on a miss, modelled by `none` here and turned into
`PyErr.keyError` at the lookup site in `process`. -/
def subjects (option : String) : Option String :=
  if option = NROption.BEFORE_EXPIRY.value then some "Expiring Soon"
  else if option = NROption.EXPIRED.value then some "Expired"
  else if option = NROption.RENEWAL.value then some "Confirmation of Renewal"
  else if option = NROption.UPGRADE.value then some "Confirmation of Upgrade"
  else if option = NROption.REFUND.value then some "Refund request confirmation"
  else none

/-- The `process(email_info, option)` function, line by line:
debug log; `nr_number = email_info['identifier']`; read the template file
(FileNotFoundError propagates); `substitute_template_parts`; query the
registry and on a non-OK status log an error and return `{}`; compute
`expiration_date`, `refund_value`, `legal_name`, the URLs; render the
template with autoescape; return `{}` when recipients are falsy; look up
the subject (`KeyError` propagates) and assemble the payload. -/
def process (env : Env) (email_info : EmailInfo) (option : String) :
    Except PyErr (List LogEntry × ProcResult) :=
  let logs := [debugLog option]
  let nr_number := email_info.identifier
  match env.templates (templatePath env.config option) with
  | none => Except.error (PyErr.fileNotFound (templatePath env.config option))
  | some template =>
    let filled_template := env.substitute_template_parts template
    let nr_response := env.query_nr_number nr_number
    if nr_response.status_code ≠ 200 then
      Except.ok
        (logs ++ [LogEntry.error ("Failed to get nr info for name request: " ++ nr_number)],
         ProcResult.empty)
    else
      let nr_data := nr_response.json
      match computeExpirationDate env nr_data with
      | Except.error e => Except.error e
      | Except.ok expiration_date =>
        let refund_value := computeRefundValue email_info option
        let legal_name := legalNameOf nr_data.names
        let name_request_url := get_url env.config nr_data.entity_type_cd
        let decide_business_url := env.config.DECIDE_BUSINESS_URL
        let html_out := renderTemplate
          { nr_number := nr_number,
            expiration_date := expiration_date,
            legal_name := legal_name,
            refund_value := refund_value,
            name_request_url := name_request_url,
            decide_business_url := decide_business_url } filled_template
        match nr_data.applicants.emailAddress with
        | none => Except.ok (logs, ProcResult.empty)
        | some recipients =>
          if recipients = "" then Except.ok (logs, ProcResult.empty)
          else
            match subjects option with
            | none => Except.error (PyErr.keyError option)
            | some suffix =>
              Except.ok
                (logs,
                 ProcResult.payload
                   { recipients := recipients,
                     requestBy := "BCRegistries@gov.bc.ca",
                     content :=
                       { subject := nr_number ++ " - " ++ suffix,
                         body := html_out,
                         attachments := [] } })

/-! ### Concrete test data for witnesses -/

/-- A concrete configuration. -/
def cfgA : Config :=
  { DECIDE_BUSINESS_URL := some "https://decide.example",
    CORP_FORMS_URL := some "https://forms.example",
    BUSINESS_URL := some "https://business.example",
    COLIN_URL := some "https://colin.example",
    TEMPLATE_PATH := "tpl" }

/-- A concrete registry record: one APPROVED name, one recipient. -/
def nrDataA : NrData :=
  { expirationDate := some "2023-05-01T00:00:00+00:00",
    names := [{ name := "Acme Co", state := "APPROVED" }],
    applicants := { emailAddress := some "applicant@example.com" },
    entity_type_cd := "BC" }

/-- A concrete template. -/
def tplA : TemplateText :=
  [Seg.lit "Hello ", Seg.var TemplateVar.legal_name, Seg.lit "!"]

/-- A concrete environment whose template store holds exactly
`tpl/NR-RENEWAL.html` and whose registry lookup returns 200 OK. -/
def envA : Env :=
  { config := cfgA,
    templates := fun p => if p = "tpl/NR-RENEWAL.html" then some tplA else none,
    substitute_template_parts := fun t => t,
    query_nr_number := fun _ => { status_code := 200, json := nrDataA },
    fromisoformat := fun s => some s,
    as_legislation_timezone := fun s => s,
    format_as_report_string := fun _ => "May 1, 2023" }

/-- A concrete `email_info`, with a refund value present. -/
def eiA : EmailInfo :=
  { identifier := "NR 1234567",
    data := some { request := some { refundValue := some "9.99" } } }

/-- Like `envA`, but the template store holds `tpl/NR-BEFORE-EXPIRY.html`
and the registry lookup fails with 500. -/
def envErr : Env :=
  { envA with
    templates := fun p => if p = "tpl/NR-BEFORE-EXPIRY.html" then some tplA else none,
    query_nr_number := fun _ => { status_code := 500, json := nrDataA } }

/-- Like `envErr` (registry gives 500) but with an empty template store. -/
def envNoTpl : Env :=
  { envErr with templates := fun _ => none }

/-! ### Theorems -/

/-- C1: if the template file for the option exists and the registry lookup
for `email_info['identifier']` returns a status other than OK, `process`
logs an error and returns the empty mapping, whatever the other inputs; it
does not raise. -/
theorem process_nonOK_logs_and_returns_empty (env : Env) (email_info : EmailInfo)
    (option : String) (t : TemplateText)
    (htpl : env.templates (templatePath env.config option) = some t)
    (hstatus : (env.query_nr_number email_info.identifier).status_code ≠ 200) :
    process env email_info option =
      Except.ok
        ([debugLog option,
          LogEntry.error ("Failed to get nr info for name request: " ++ email_info.identifier)],
         ProcResult.empty) := by
  unfold process
  rw [htpl]
  simp [hstatus]

/-- Witness for C1: a concrete run with the template present and the
registry answering 500. -/
theorem process_nonOK_logs_and_returns_empty_witness :
    process envErr eiA "before-expiry" =
      Except.ok
        ([debugLog "before-expiry",
          LogEntry.error ("Failed to get nr info for name request: " ++ "NR 1234567")],
         ProcResult.empty) :=
  process_nonOK_logs_and_returns_empty envErr eiA "before-expiry" tplA (by rfl) (by decide)

/-- C8: when the template file for the option is absent, `process`
propagates the `FileNotFoundError` of `read_text` to the caller; it never
converts the condition into an empty-mapping return. -/
theorem process_missing_template_raises (env : Env) (email_info : EmailInfo)
    (option : String)
    (habs : env.templates (templatePath env.config option) = none) :
    process env email_info option =
      Except.error (PyErr.fileNotFound (templatePath env.config option)) := by
  unfold process
  rw [habs]

/-- Witness for C8: a concrete run with an empty template store. -/
theorem process_missing_template_raises_witness :
    process envNoTpl eiA "upgrade" =
      Except.error (PyErr.fileNotFound "tpl/NR-UPGRADE.html") :=
  process_missing_template_raises envNoTpl eiA "upgrade" (by rfl)

/-- C10: the template file is read (and substituted) before the registry is
queried: a missing template raises even when the registry lookup would be
non-OK, and any non-raising exit (both empty-mapping exits included) is
reachable only when the template file is present. -/
theorem process_template_before_query (env : Env) (email_info : EmailInfo)
    (option : String) :
    (env.templates (templatePath env.config option) = none →
      process env email_info option =
        Except.error (PyErr.fileNotFound (templatePath env.config option))) ∧
    (∀ (l : List LogEntry) (r : ProcResult),
      process env email_info option = Except.ok (l, r) →
        ∃ t, env.templates (templatePath env.config option) = some t) := by
  constructor
  · intro habs
    unfold process
    rw [habs]
  · intro l r h
    cases htpl : env.templates (templatePath env.config option) with
    | none =>
      unfold process at h
      rw [htpl] at h
      exact Except.noConfusion h
    | some t => exact ⟨t, rfl⟩

/-- Witness for C10: with an empty template store and a registry that would
answer 500, `process` still raises `FileNotFoundError`. -/
theorem process_template_before_query_witness :
    process envNoTpl eiA "renewal" =
      Except.error (PyErr.fileNotFound "tpl/NR-RENEWAL.html") :=
  (process_template_before_query envNoTpl eiA "renewal").1 (by rfl)

/-- Like `envA`, but the registry record's applicants carry a `null`
e-mail address. -/
def envNoRec : Env :=
  { envA with
    query_nr_number := fun _ =>
      { status_code := 200,
        json := { nrDataA with applicants := { emailAddress := none } } } }

/-- C3: when the registry lookup succeeds (status OK) but the record's
`applicants.emailAddress` is empty or null, `process` returns the empty
mapping — neither a payload nor an exception. -/
theorem process_no_recipients_returns_empty (env : Env) (email_info : EmailInfo)
    (option : String) (t : TemplateText) (ed : String)
    (htpl : env.templates (templatePath env.config option) = some t)
    (hstatus : (env.query_nr_number email_info.identifier).status_code = 200)
    (hexp : computeExpirationDate env (env.query_nr_number email_info.identifier).json =
      Except.ok ed)
    (hrec : (env.query_nr_number email_info.identifier).json.applicants.emailAddress = none ∨
      (env.query_nr_number email_info.identifier).json.applicants.emailAddress = some "") :
    process env email_info option = Except.ok ([debugLog option], ProcResult.empty) := by
  unfold process
  rw [htpl]
  rcases hrec with h | h <;> simp [hstatus, hexp, h]

/-- Witness for C3: a concrete OK run whose record has a `null`
`applicants.emailAddress`. -/
theorem process_no_recipients_returns_empty_witness :
    process envNoRec eiA "renewal" = Except.ok ([debugLog "renewal"], ProcResult.empty) :=
  process_no_recipients_returns_empty envNoRec eiA "renewal" tplA "May 1, 2023"
    (by rfl) (by rfl) (by rfl) (Or.inl (by rfl))

/-- Spec-side reformulation of the legal-name selection: the name of the
first entry of the `names` sequence whose `state` is APPROVED or
CONDITION, and the empty string when no entry matches. -/
def firstApprovedOrConditionName (names : List NameItem) : String :=
  match names.find? (fun n => decide (n.state = "APPROVED" ∨ n.state = "CONDITION")) with
  | some n => n.name
  | none => ""

theorem legalNameOf_eq_first (names : List NameItem) :
    legalNameOf names = firstApprovedOrConditionName names := by
  induction names with
  | nil => rfl
  | cons n rest ih =>
    by_cases h : n.state = "APPROVED" ∨ n.state = "CONDITION"
    · simp [legalNameOf, firstApprovedOrConditionName, List.find?, h]
    · simpa [legalNameOf, firstApprovedOrConditionName, List.find?, h] using ih

/-- C4: the `legal_name` variable computed by the scan of the record's
`names` sequence equals the name of the first entry whose state is
APPROVED or CONDITION (empty string when none matches); in particular, for
`[{name:"A", state:"REJECTED"}, {name:"B", state:"CONDITION"}]` it is
`"B"`. -/
theorem legalNameOf_first_approved_or_condition :
    (∀ names : List NameItem, legalNameOf names = firstApprovedOrConditionName names) ∧
    legalNameOf
      [{ name := "A", state := "REJECTED" }, { name := "B", state := "CONDITION" }] = "B" :=
  ⟨legalNameOf_eq_first, by decide⟩

/-- C6: when the record's `expirationDate` is a non-empty timestamp that
`fromisoformat` accepts, the `expiration_date` variable is that timestamp
converted to the legislative timezone and formatted as the report string;
when `expirationDate` is empty or null, the variable is the empty
string. -/
theorem computeExpirationDate_spec (env : Env) (nr_data : NrData) :
    ((nr_data.expirationDate = none ∨ nr_data.expirationDate = some "") →
      computeExpirationDate env nr_data = Except.ok "") ∧
    (∀ s d : String, nr_data.expirationDate = some s → s ≠ "" →
      env.fromisoformat s = some d →
      computeExpirationDate env nr_data =
        Except.ok (env.format_as_report_string (env.as_legislation_timezone d))) := by
  constructor
  · rintro (h | h) <;> simp [computeExpirationDate, h]
  · intro s d hs hne hparse
    simp [computeExpirationDate, hs, hne, hparse]

/-- Witness for C6: `nrDataA` carries the timestamp
"2023-05-01T00:00:00+00:00" and `envA` formats it as "May 1, 2023"; a
record with a `null` expiration date yields the empty string. -/
theorem computeExpirationDate_spec_witness :
    computeExpirationDate envA nrDataA = Except.ok "May 1, 2023" ∧
    computeExpirationDate envA { nrDataA with expirationDate := none } = Except.ok "" :=
  ⟨(computeExpirationDate_spec envA nrDataA).2 "2023-05-01T00:00:00+00:00"
      "2023-05-01T00:00:00+00:00" (by rfl) (by decide) (by rfl),
   (computeExpirationDate_spec envA { nrDataA with expirationDate := none }).1
      (Or.inl (by rfl))⟩

/-- Inversion of a payload-producing run: whenever `process` returns a
payload, the subject table had the option as a key, the record had a
truthy e-mail address, and the payload fields are the assembled ones. -/
theorem process_payload_run_facts (env : Env) (email_info : EmailInfo) (option : String)
    (l : List LogEntry) (p : EmailPayload)
    (h : process env email_info option = Except.ok (l, ProcResult.payload p)) :
    ∃ suffix r,
      subjects option = some suffix ∧
      (env.query_nr_number email_info.identifier).json.applicants.emailAddress = some r ∧
      r ≠ "" ∧
      p.recipients = r ∧
      p.requestBy = "BCRegistries@gov.bc.ca" ∧
      p.content.subject = email_info.identifier ++ " - " ++ suffix ∧
      p.content.attachments = ([] : List String) := by
  unfold process at h
  simp only [] at h
  split at h
  next => exact Except.noConfusion h
  next t htpl =>
    split at h
    next => simp at h
    next hst =>
      split at h
      next => exact Except.noConfusion h
      next ed hexp =>
        split at h
        next => simp at h
        next recipients hrec =>
          split at h
          next => simp at h
          next hr =>
            split at h
            next => exact Except.noConfusion h
            next suffix hsubj =>
              simp only [Except.ok.injEq, Prod.mk.injEq, ProcResult.payload.injEq] at h
              obtain ⟨-, hp⟩ := h
              subst hp
              exact ⟨suffix, recipients, hsubj, hrec, hr, rfl, rfl, rfl, rfl⟩

/-- Forward computation of a fully successful run of `process`. -/
theorem process_success_run (env : Env) (email_info : EmailInfo) (option : String)
    (t : TemplateText) (r ed suffix : String)
    (htpl : env.templates (templatePath env.config option) = some t)
    (hstatus : (env.query_nr_number email_info.identifier).status_code = 200)
    (hexp : computeExpirationDate env (env.query_nr_number email_info.identifier).json =
      Except.ok ed)
    (hrec : (env.query_nr_number email_info.identifier).json.applicants.emailAddress = some r)
    (hr : r ≠ "")
    (hsubj : subjects option = some suffix) :
    process env email_info option =
      Except.ok
        ([debugLog option],
         ProcResult.payload
           { recipients := r,
             requestBy := "BCRegistries@gov.bc.ca",
             content :=
               { subject := email_info.identifier ++ " - " ++ suffix,
                 body := renderTemplate
                   { nr_number := email_info.identifier,
                     expiration_date := ed,
                     legal_name :=
                       legalNameOf (env.query_nr_number email_info.identifier).json.names,
                     refund_value := computeRefundValue email_info option,
                     name_request_url :=
                       get_url env.config
                         (env.query_nr_number email_info.identifier).json.entity_type_cd,
                     decide_business_url := env.config.DECIDE_BUSINESS_URL }
                   (env.substitute_template_parts t),
                 attachments := [] } }) := by
  unfold process
  rw [htpl]
  simp [hstatus, hexp, hrec, hr, hsubj]

/-- C7: a non-empty result of `process` always has the fixed sender, empty
attachments, subject `"<identifier> - <suffix>"` with the suffix from the
per-option table, and the record's e-mail address as recipients. -/
theorem process_payload_shape (env : Env) (email_info : EmailInfo) (option : String)
    (l : List LogEntry) (p : EmailPayload)
    (h : process env email_info option = Except.ok (l, ProcResult.payload p)) :
    p.requestBy = "BCRegistries@gov.bc.ca" ∧
    p.content.attachments = ([] : List String) ∧
    (∃ suffix, subjects option = some suffix ∧
      p.content.subject = email_info.identifier ++ " - " ++ suffix) ∧
    (env.query_nr_number email_info.identifier).json.applicants.emailAddress =
      some p.recipients := by
  obtain ⟨suffix, r, hsubj, hrec, -, hpr, hby, hsubject, hatt⟩ :=
    process_payload_run_facts env email_info option l p h
  exact ⟨hby, hatt, ⟨suffix, hsubj, hsubject⟩, by rw [hpr]; exact hrec⟩

/-- The payload of the concrete renewal run of `envA` on `eiA`. -/
def payloadA : EmailPayload :=
  { recipients := "applicant@example.com",
    requestBy := "BCRegistries@gov.bc.ca",
    content :=
      { subject := "NR 1234567 - Confirmation of Renewal",
        body := "Hello Acme Co!",
        attachments := [] } }

/-- Witness for C7: the end-to-end renewal scenario — identifier
"NR 1234567", one APPROVED name "Acme Co", entity type "BC", one recipient
— produces the subject "NR 1234567 - Confirmation of Renewal". -/
theorem process_payload_shape_witness :
    payloadA.requestBy = "BCRegistries@gov.bc.ca" ∧
    payloadA.content.attachments = ([] : List String) ∧
    (∃ suffix, subjects "renewal" = some suffix ∧
      payloadA.content.subject = "NR 1234567" ++ " - " ++ suffix) ∧
    (envA.query_nr_number "NR 1234567").json.applicants.emailAddress =
      some payloadA.recipients :=
  process_payload_shape envA eiA "renewal" [debugLog "renewal"] payloadA (by rfl)

/-- Counterexample to C2 as stated: with the renewal template present, an
OK registry response and a recipient present, the upper-cased option
"RENEWAL" still selects the template file `NR-RENEWAL.html`, but
`subjects[option]` raises `KeyError` instead of using the matching subject
suffix — so case-insensitivity does not extend to the subject table. -/
theorem process_uppercase_option_keyerror :
    process envA eiA "RENEWAL" = Except.error (PyErr.keyError "RENEWAL") := by rfl

/-- C2 amended: for every option string, the template file consulted is
`NR-<OPTION-UPPERCASE>.html` (its absence raises with exactly that path);
the matching subject suffix from the fixed table is used only when the
option is spelled exactly as the lowercase enum value, and an option that
is not a key of the subject table can never yield a payload. -/
theorem process_option_casing (env : Env) (email_info : EmailInfo) (option : String) :
    (env.templates (templatePath env.config option) = none →
      process env email_info option =
        Except.error (PyErr.fileNotFound (templatePath env.config option))) ∧
    ((option = "before-expiry" ∨ option = "expired" ∨ option = "renewal" ∨
        option = "upgrade" ∨ option = "refund") →
      ∀ (l : List LogEntry) (p : EmailPayload),
        process env email_info option = Except.ok (l, ProcResult.payload p) →
          ∃ suffix, subjects option = some suffix ∧
            p.content.subject = email_info.identifier ++ " - " ++ suffix) ∧
    (subjects option = none →
      ∀ (l : List LogEntry) (p : EmailPayload),
        process env email_info option ≠ Except.ok (l, ProcResult.payload p)) := by
  refine ⟨?_, ?_, ?_⟩
  · intro habs
    unfold process
    rw [habs]
  · intro _ l p h
    obtain ⟨suffix, _, hsubj, -, -, -, -, hsubject, -⟩ :=
      process_payload_run_facts env email_info option l p h
    exact ⟨suffix, hsubj, hsubject⟩
  · intro hnone l p h
    obtain ⟨suffix, _, hsubj, -⟩ := process_payload_run_facts env email_info option l p h
    rw [hnone] at hsubj
    exact Option.noConfusion hsubj

/-- Witness for the amended C2: the template path consulted for option
"expired" is `tpl/NR-EXPIRED.html`, and the lowercase renewal run carries
the subject suffix of the table. -/
theorem process_option_casing_witness :
    process envNoTpl eiA "expired" =
      Except.error (PyErr.fileNotFound "tpl/NR-EXPIRED.html") ∧
    (∃ suffix, subjects "renewal" = some suffix ∧
      payloadA.content.subject = "NR 1234567" ++ " - " ++ suffix) :=
  ⟨(process_option_casing envNoTpl eiA "expired").1 (by rfl),
   (process_option_casing envA eiA "renewal").2.1 (Or.inr (Or.inr (Or.inl rfl)))
     [debugLog "renewal"] payloadA (by rfl)⟩

/-- The single-interpolation template `{{ refund_value }}`. -/
def tplRefund : TemplateText := [Seg.var TemplateVar.refund_value]

/-- Like `envA`, but the template store holds `tpl/NR-UPGRADE.html`, whose
content is the single interpolation of `refund_value`. -/
def envRefundTpl : Env :=
  { envA with
    templates := fun p => if p = "tpl/NR-UPGRADE.html" then some tplRefund else none }

/-- C5: `refund_value` is taken from `email_info.data.request.refundValue`
only when the option is `refund`; for every other option it is the empty
string and renders as empty even when a refund value is present in
`email_info`. -/
theorem refund_value_only_for_refund (env : Env) (email_info : EmailInfo) (option : String)
    (t : TemplateText) (r ed suffix : String)
    (htpl : env.templates (templatePath env.config option) = some t)
    (hsub : env.substitute_template_parts t = [Seg.var TemplateVar.refund_value])
    (hstatus : (env.query_nr_number email_info.identifier).status_code = 200)
    (hexp : computeExpirationDate env (env.query_nr_number email_info.identifier).json =
      Except.ok ed)
    (hrec : (env.query_nr_number email_info.identifier).json.applicants.emailAddress = some r)
    (hr : r ≠ "")
    (hsubj : subjects option = some suffix)
    (hopt : option ≠ NROption.REFUND.value) :
    computeRefundValue email_info option = some "" ∧
    (∀ ei2 : EmailInfo, computeRefundValue ei2 NROption.REFUND.value = refundValueOf ei2) ∧
    ∃ l p, process env email_info option = Except.ok (l, ProcResult.payload p) ∧
      p.content.body = "" := by
  have hrv : computeRefundValue email_info option = some "" := by
    simp [computeRefundValue, hopt]
  have hrun := process_success_run env email_info option t r ed suffix
    htpl hstatus hexp hrec hr hsubj
  rw [hsub] at hrun
  refine ⟨hrv, fun ei2 => by simp [computeRefundValue], [debugLog option], _, hrun, ?_⟩
  show renderTemplate _ [Seg.var TemplateVar.refund_value] = ""
  simp only [renderTemplate, renderSeg, varValue, hrv]
  decide

/-- Witness for C5: an upgrade run of a `{{ refund_value }}` template with
`email_info.data.request.refundValue = "9.99"` present renders an empty
body. -/
theorem refund_value_only_for_refund_witness :
    computeRefundValue eiA "upgrade" = some "" ∧
    (∀ ei2 : EmailInfo, computeRefundValue ei2 NROption.REFUND.value = refundValueOf ei2) ∧
    ∃ l p, process envRefundTpl eiA "upgrade" = Except.ok (l, ProcResult.payload p) ∧
      p.content.body = "" :=
  refund_value_only_for_refund envRefundTpl eiA "upgrade" tplRefund
    "applicant@example.com" "May 1, 2023" "Confirmation of Upgrade"
    (by rfl) (by rfl) (by rfl) (by rfl) (by rfl) (by decide) (by rfl) (by decide)

theorem escapeCharL_no_angle (c : Char) :
    ¬ '<' ∈ escapeCharL c ∧ ¬ '>' ∈ escapeCharL c := by
  unfold escapeCharL
  split
  next => decide
  next =>
    split
    next => decide
    next h60 =>
      split
      next => decide
      next h62 =>
        split
        next => decide
        next =>
          split
          next => decide
          next =>
            constructor
            · intro hm
              rw [List.mem_singleton] at hm
              subst hm
              exact h60 (by decide)
            · intro hm
              rw [List.mem_singleton] at hm
              subst hm
              exact h62 (by decide)

theorem htmlEscapeL_no_angle (l : List Char) :
    ¬ '<' ∈ htmlEscapeL l ∧ ¬ '>' ∈ htmlEscapeL l := by
  induction l with
  | nil => exact ⟨by simp [htmlEscapeL], by simp [htmlEscapeL]⟩
  | cons c cs ih =>
    simp only [htmlEscapeL, List.mem_append]
    constructor
    · rintro (h | h)
      · exact (escapeCharL_no_angle c).1 h
      · exact ih.1 h
    · rintro (h | h)
      · exact (escapeCharL_no_angle c).2 h
      · exact ih.2 h

/-- C9: rendering auto-escapes every substituted variable value: an
escaped value never contains a raw `<` or `>`, and in a run whose
substituted template is the interpolation of `legal_name`, the returned
body is exactly the HTML-escaped legal name — markup inside a
registry-supplied name is never emitted as markup. -/
theorem rendered_legal_name_escaped (env : Env) (email_info : EmailInfo) (option : String)
    (t : TemplateText) (r ed suffix : String)
    (htpl : env.templates (templatePath env.config option) = some t)
    (hsub : env.substitute_template_parts t = [Seg.var TemplateVar.legal_name])
    (hstatus : (env.query_nr_number email_info.identifier).status_code = 200)
    (hexp : computeExpirationDate env (env.query_nr_number email_info.identifier).json =
      Except.ok ed)
    (hrec : (env.query_nr_number email_info.identifier).json.applicants.emailAddress = some r)
    (hr : r ≠ "")
    (hsubj : subjects option = some suffix) :
    (∀ s : String, ¬ '<' ∈ (htmlEscape s).data ∧ ¬ '>' ∈ (htmlEscape s).data) ∧
    ∃ l p, process env email_info option = Except.ok (l, ProcResult.payload p) ∧
      p.content.body =
        htmlEscape (legalNameOf (env.query_nr_number email_info.identifier).json.names) ∧
      ¬ '<' ∈ p.content.body.data := by
  have hesc : ∀ s : String, ¬ '<' ∈ (htmlEscape s).data ∧ ¬ '>' ∈ (htmlEscape s).data :=
    fun s => htmlEscapeL_no_angle s.data
  have hrun := process_success_run env email_info option t r ed suffix
    htpl hstatus hexp hrec hr hsubj
  rw [hsub] at hrun
  have hbody : renderTemplate
      { nr_number := email_info.identifier,
        expiration_date := ed,
        legal_name := legalNameOf (env.query_nr_number email_info.identifier).json.names,
        refund_value := computeRefundValue email_info option,
        name_request_url :=
          get_url env.config (env.query_nr_number email_info.identifier).json.entity_type_cd,
        decide_business_url := env.config.DECIDE_BUSINESS_URL }
      [Seg.var TemplateVar.legal_name] =
      htmlEscape (legalNameOf (env.query_nr_number email_info.identifier).json.names) := by
    simp only [renderTemplate, renderSeg, varValue]
    exact String.append_empty _
  refine ⟨hesc, [debugLog option], _, hrun, ?_, ?_⟩
  · exact hbody
  · show ¬ '<' ∈ (renderTemplate _ [Seg.var TemplateVar.legal_name]).data
    rw [hbody]
    exact (hesc _).1

/-- A registry record whose APPROVED name carries HTML markup. -/
def nrDataScript : NrData :=
  { nrDataA with
    names := [{ name := "<script>alert(1)</script>", state := "APPROVED" }] }

/-- The single-interpolation template `{{ legal_name }}`. -/
def tplName : TemplateText := [Seg.var TemplateVar.legal_name]

/-- Like `envA`, but the template store holds `tpl/NR-REFUND.html` (the
legal-name interpolation) and the registry record is `nrDataScript`. -/
def envScript : Env :=
  { envA with
    templates := fun p => if p = "tpl/NR-REFUND.html" then some tplName else none,
    query_nr_number := fun _ => { status_code := 200, json := nrDataScript } }

/-- Witness for C9: the markup-carrying legal name renders as its escaped
form. -/
theorem rendered_legal_name_escaped_witness :
    (∀ s : String, ¬ '<' ∈ (htmlEscape s).data ∧ ¬ '>' ∈ (htmlEscape s).data) ∧
    ∃ l p, process envScript eiA "refund" = Except.ok (l, ProcResult.payload p) ∧
      p.content.body = htmlEscape "<script>alert(1)</script>" ∧
      ¬ '<' ∈ p.content.body.data :=
  rendered_legal_name_escaped envScript eiA "refund" tplName
    "applicant@example.com" "May 1, 2023" "Refund request confirmation"
    (by rfl) (by rfl) (by rfl) (by rfl) (by rfl) (by decide) (by rfl)

end NrNotification
